import Mathlib

/-!
Shallow embedding of the gorm-snowflake dialect (naming strategy, migrator,
type mapper, connection-pool selection) together with proofs of the spec's
testable properties.

Modelling conventions:
* Go strings handled byte-wise (`len`, slicing `s[:k]`) are embedded as
  `List Nat` of byte values; `strings.ToUpper` is embedded as the ASCII
  byte-wise case map (identifier inputs are ASCII).
* Go strings handled only as whole values are embedded as Lean `String`.
* Calls to the database (`m.DB.Exec`, `m.DB.Raw`) are external collaborators:
  a function that issues DDL is embedded as returning the list of emitted
  statement templates, and live metadata is passed in as an explicit value.
-/

set_option maxRecDepth 40000

namespace GormSnowflake

/-- Embedding of `strings.ToUpper` on Lean-level strings, written as a plain
character map so that it reduces definitionally. -/
def strUpper (s : String) : String := ⟨s.data.map Char.toUpper⟩

/-! ## Byte-string model -/

/-- Go string modelled as its list of byte values. -/
abbrev ByteStr := List Nat

/-- Byte-wise ASCII case map: embedding of `strings.ToUpper` on one byte. -/
def upperByte (b : Nat) : Nat := if 97 ≤ b ∧ b ≤ 122 then b - 32 else b

/-- Embedding of `strings.ToUpper` on ASCII byte strings. -/
def upperBytes (s : ByteStr) : ByteStr := s.map upperByte

/-! ## SHA-1 (`crypto/sha1`) over byte lists -/

/-- `2^32`, the word modulus of SHA-1. -/
def w32 : Nat := 4294967296

/-- Rotate a 32-bit word left by `n`. -/
def rotl (n x : Nat) : Nat := ((x <<< n) ||| (x >>> (32 - n))) % w32

/-- SHA-1 round function, selected by round index. -/
def sha1F (i b c d : Nat) : Nat :=
  if i < 20 then (b &&& c) ||| ((b ^^^ 4294967295) &&& d)
  else if i < 40 then b ^^^ c ^^^ d
  else if i < 60 then (b &&& c) ||| (b &&& d) ||| (c &&& d)
  else b ^^^ c ^^^ d

/-- SHA-1 round constant, selected by round index. -/
def sha1K (i : Nat) : Nat :=
  if i < 20 then 1518500249
  else if i < 40 then 1859775393
  else if i < 60 then 2400959708
  else 3395469782

/-- The five-word SHA-1 working state. -/
structure Sha1State where
  a : Nat
  b : Nat
  c : Nat
  d : Nat
  e : Nat

/-- One SHA-1 round on the working state, given (round index, schedule word). -/
def sha1Step (st : Sha1State) (iw : Nat × Nat) : Sha1State :=
  let t := (rotl 5 st.a + sha1F iw.1 st.b st.c st.d + st.e + sha1K iw.1 + iw.2) % w32
  ⟨t, st.a, rotl 30 st.b, st.c, st.d⟩

/-- Big-endian 32-bit words from a byte list (groups of four). -/
def toWords : List Nat → List Nat
  | a :: b :: c :: d :: rest => (a * 16777216 + b * 65536 + c * 256 + d) :: toWords rest
  | _ => []

/-- Next message-schedule word, over the reversed schedule built so far. -/
def wnext (r : List Nat) : Nat :=
  rotl 1 ((r.getD 2 0) ^^^ (r.getD 7 0) ^^^ (r.getD 13 0) ^^^ (r.getD 15 0))

/-- Extend the reversed schedule by `n` further words. -/
def extendRev : Nat → List Nat → List Nat
  | 0, r => r
  | n + 1, r => extendRev n (wnext r :: r)

/-- The 80-word SHA-1 message schedule of a 16-word block. -/
def schedule (ws : List Nat) : List Nat := (extendRev 64 ws.reverse).reverse

/-- Compress one 64-byte block into the chaining state. -/
def processBlock (h : Sha1State) (block : List Nat) : Sha1State :=
  let ws := schedule (toWords block)
  let st := ws.enum.foldl sha1Step h
  ⟨(h.a + st.a) % w32, (h.b + st.b) % w32, (h.c + st.c) % w32,
   (h.d + st.d) % w32, (h.e + st.e) % w32⟩

/-- Big-endian 8-byte encoding of the bit length. -/
def lenBytes (n : Nat) : List Nat :=
  [n / 72057594037927936 % 256, n / 281474976710656 % 256, n / 1099511627776 % 256,
   n / 4294967296 % 256, n / 16777216 % 256, n / 65536 % 256, n / 256 % 256, n % 256]

/-- SHA-1 padding: `0x80`, zeros to 56 mod 64, then the 64-bit bit length. -/
def padBytes (msg : List Nat) : List Nat :=
  msg ++ 128 :: (List.replicate ((119 - msg.length % 64) % 64) 0 ++ lenBytes (8 * msg.length))

/-- Split into `n` chunks of 64 bytes. -/
def chunksN : Nat → List Nat → List (List Nat)
  | 0, _ => []
  | n + 1, l => l.take 64 :: chunksN n (l.drop 64)

/-- Big-endian bytes of one 32-bit word. -/
def wordBytes (w : Nat) : List Nat :=
  [w / 16777216 % 256, w / 65536 % 256, w / 256 % 256, w % 256]

/-- Embedding of `sha1.Sum`: the 20-byte SHA-1 digest of a byte string. -/
def sha1 (msg : List Nat) : List Nat :=
  let padded := padBytes msg
  let blocks := chunksN (padded.length / 64) padded
  let hf := blocks.foldl processBlock ⟨1732584193, 4023233417, 2562383102, 271733878, 3285377520⟩
  wordBytes hf.a ++ wordBytes hf.b ++ wordBytes hf.c ++ wordBytes hf.d ++ wordBytes hf.e

/-! ## Lowercase hex encoding (`encoding/hex`) -/

/-- Lowercase hex digit of a nibble. -/
def hexDigit (d : Nat) : Nat := if d < 10 then 48 + d else 87 + d

/-- The two hex-digit bytes of one byte. -/
def hexByte (b : Nat) : List Nat := [hexDigit (b / 16), hexDigit (b % 16)]

/-- Embedding of `hex.EncodeToString` on a byte list. -/
def hexEncode (l : List Nat) : List Nat := l.flatMap hexByte

/-! ## Naming strategy (`truncateWithHash`) -/

/-- Snowflake's identifier length limit used by the naming strategy. -/
def maxIdentifierLength : Nat := 255

/-- Embedding of `truncateWithHash`: uppercase; if within the limit return as
is, otherwise keep a prefix and append `_` plus the 16-hex-char digest of the
first 8 SHA-1 bytes of the whole uppercased name. -/
def truncateWithHash (name : ByteStr) : ByteStr :=
  let name := upperBytes name
  if name.length ≤ maxIdentifierLength then name
  else
    let sum := sha1 name
    let tail := hexEncode (sum.take 8)
    let keep := max (maxIdentifierLength - 1 - tail.length) 1
    name.take keep ++ 95 :: tail

/-! ## Basic lemmas about the byte-string layer -/

theorem upperBytes_length (s : ByteStr) : (upperBytes s).length = s.length :=
  List.length_map _ _

theorem wordBytes_length (w : Nat) : (wordBytes w).length = 4 := rfl

theorem sha1_length (msg : List Nat) : (sha1 msg).length = 20 := by
  simp [sha1, wordBytes]

theorem hexEncode_length (l : List Nat) : (hexEncode l).length = 2 * l.length := by
  induction l with
  | nil => rfl
  | cons h t ih => simp [hexEncode, hexByte] at ih ⊢; omega

theorem hexDigit_ne_sep (d : Nat) : hexDigit d ≠ 95 := by
  unfold hexDigit; split <;> omega

theorem hexEncode_count_sep (l : List Nat) : (hexEncode l).count 95 = 0 := by
  induction l with
  | nil => rfl
  | cons h t ih =>
    simp [hexEncode, hexByte, List.count_cons, List.count_append] at ih ⊢
    exact ⟨⟨ih, hexDigit_ne_sep _⟩, hexDigit_ne_sep _⟩

/-- The hex tail appended by `truncateWithHash` always has 16 characters. -/
theorem tail_length (s : ByteStr) :
    (hexEncode ((sha1 s).take 8)).length = 16 := by
  rw [hexEncode_length, List.length_take, sha1_length]
  decide

/-! ## Type mapper (`Dialector.DataTypeOf`) -/

/-- gorm's logical field data types (`schema.DataType`); `other` carries the
raw caller-declared type string of the switch's default branch. -/
inductive DataType where
  | bool
  | int
  | uint
  | float
  | string
  | time
  | bytes
  | other (raw : String)
deriving DecidableEq

/-- The parts of `schema.Field` read by the dialect: name, logical type,
declared size, key/identity/nullability flags and the INDEX/UNIQUE tag
settings (empty string when the tag is absent, as in Go's map lookup). -/
structure Field where
  dbName : String
  dataType : DataType
  size : Int
  primaryKey : Bool
  autoIncrement : Bool
  notNull : Bool
  tagIndex : String
  tagUnique : String
deriving DecidableEq

/-- The effective size used by `DataTypeOf` for strings: 256 when the field is
a primary key or carries an INDEX/UNIQUE tag and no explicit size was given. -/
def effectiveSize (f : Field) : Int :=
  if (f.primaryKey || (f.tagIndex != "" || f.tagUnique != "")) && f.size == 0 then 256
  else f.size

/-- Embedding of `Dialector.DataTypeOf`. -/
def dataTypeOf (f : Field) : String :=
  match f.dataType with
  | .bool => "BOOLEAN"
  | .int | .uint => if f.autoIncrement then "BIGINT IDENTITY(1,1)" else "BIGINT"
  | .float => "FLOAT"
  | .string =>
      let size := effectiveSize f
      if 0 < size ∧ size ≤ 4000 then "VARCHAR(" ++ toString size ++ ")" else "VARCHAR"
  | .time => "TIMESTAMP_NTZ"
  | .bytes => "VARBINARY"
  | .other raw => raw

/-! ## Inbound type normalization (`normalizedColumnType`) -/

/-- The parts of a wrapped `gorm.ColumnType` read by the dialect:
`DatabaseTypeName()`, `DecimalSize()` (with its ok flag), `Length()` and
`Nullable()` (as `Option`, `none` when the ok flag is false). -/
structure GormColumn where
  rawTypeName : String
  decimalOk : Bool
  precision : Int
  scale : Int
  lengthVal : Option Int
  nullableVal : Option Bool
deriving DecidableEq

/-- Embedding of `normalizedColumnType.DatabaseTypeName`: numeric family by
scale, textual family to TEXT, temporal and unknown types passed through. -/
def databaseTypeName (c : GormColumn) : String :=
  let raw := c.rawTypeName
  let up := strUpper raw
  if up = "NUMBER" ∨ up = "DECIMAL" ∨ up = "NUMERIC" ∨ up = "FIXED" then
    if c.decimalOk = true ∧ 0 < c.scale then "FLOAT" else "BIGINT"
  else if up = "TEXT" ∨ up = "VARCHAR" then "TEXT"
  else if up = "BOOLEAN" then "BOOLEAN"
  else if up = "TIMESTAMP_NTZ" ∨ up = "TIMESTAMP_LTZ" ∨ up = "TIMESTAMP_TZ" ∨
          up = "DATE" ∨ up = "TIME" then raw
  else raw

/-! ## Column migration (`Migrator.MigrateColumn`) -/

/-- `strings.Split(s, "(")[0]`: the part of `s` before the first parenthesis. -/
def splitParenHead (s : String) : String :=
  String.mk (s.toList.takeWhile (fun c => c ≠ '('))

/-- Embedding of `Migrator.MigrateColumn` for a field matched against a live
column; the result is the list of emitted DDL statement templates (statement
execution itself is the external `m.DB.Exec` collaborator). -/
def migrateColumn (f : Field) (ct : GormColumn) : List String :=
  if f.autoIncrement then []
  else
    let expectedType := dataTypeOf f
    let actualType := databaseTypeName ct
    let baseExpected := strUpper (splitParenHead expectedType)
    let baseActual := strUpper actualType
    let typeMismatch : Bool :=
      if baseExpected == "VARCHAR" && baseActual == "TEXT" then false
      else baseExpected != baseActual
    let lengthMismatch : Bool :=
      match ct.lengthVal with
      | some len => decide (0 < f.size) && len != f.size
      | none => false
    let alterClauses := if typeMismatch || lengthMismatch then ["SET DATA TYPE ?"] else []
    let nullClauses :=
      match ct.nullableVal with
      | some isNullable =>
          if !f.primaryKey && (f.notNull != !isNullable) then
            if f.notNull then ["SET NOT NULL"] else ["DROP NOT NULL"]
          else []
      | none => []
    let clauses := alterClauses ++ nullClauses
    if 0 < clauses.length then
      ["ALTER TABLE ? ALTER COLUMN ? " ++ String.intercalate " " clauses]
    else []

/-! ## Unsupported operations -/

/-- Embedding of `Migrator.RenameColumn`: unconditional error, and the error
case carries no DDL. -/
def renameColumn (value oldName newName : String) : Except String (List String) :=
  .error "RENAME COLUMN UNSUPPORTED"

/-- Embedding of `Migrator.HasIndex`: unconditionally true, no metadata query. -/
def hasIndex (value : String) (name : String) : Bool := true

/-! ## Constraints (`GuessConstraintAndTable`, `CreateConstraint`) -/

/-- The part of `schema.Schema` read by the constraint path. -/
structure SchemaInfo where
  table : String
deriving DecidableEq

/-- The parts of `gorm.Statement` read by the constraint path. -/
structure Statement where
  schema : Option SchemaInfo
  table : String
  tableExpr : Option String
deriving DecidableEq

/-- The parts of `schema.Constraint` read by `buildConstraint`. -/
structure Constraint where
  name : String
  onDelete : String
  onUpdate : String
  foreignKeys : List String
  refTable : String
  references : List String
deriving DecidableEq

/-- Embedding of `buildConstraint`: the foreign-key DDL fragment and its
ordered argument names. -/
def buildConstraint (c : Constraint) : String × List String :=
  let sql := "CONSTRAINT ? FOREIGN KEY ? REFERENCES ??"
  let sql := if c.onDelete ≠ "" then sql ++ " ON DELETE " ++ c.onDelete else sql
  let sql := if c.onUpdate ≠ "" then sql ++ " ON UPDATE " ++ c.onUpdate else sql
  let sql := sql ++ " ENFORCED"
  (sql, c.name :: (c.foreignKeys ++ c.refTable :: c.references))

/-- Embedding of `Migrator.GuessConstraintAndTable`: the constraint component
is always `none` (the Go method returns `nil` in both branches). -/
def guessConstraintAndTable (stmt : Statement) (name : String) :
    Option Constraint × String :=
  match stmt.schema with
  | none => (none, stmt.table)
  | some sch => (none, sch.table)

/-- Embedding of `Migrator.CreateConstraint`: the list of emitted DDL
statement templates (empty when the guessed constraint is `nil`). -/
def createConstraint (stmt : Statement) (name : String) : List String :=
  match guessConstraintAndTable stmt name with
  | (some c, _) => ["ALTER TABLE ? ADD " ++ (buildConstraint c).1]
  | (none, _) => []

/-- Embedding of `Migrator.HasConstraint`'s metadata query: the live metadata
is the list of uppercased constraint names present on the statement's table,
and the count-query is membership of the uppercased name. -/
def hasConstraintLive (live : List String) (name : String) : Bool :=
  live.contains (strUpper name)

/-- One relationship's constraint-diff step of `Migrator.AutoMigrate`: if no
constraint with the name exists live, call `CreateConstraint` and collect the
DDL it emits. -/
def constraintStep (live : List String) (stmt : Statement) (conName : String) :
    List String :=
  if hasConstraintLive live conName then [] else createConstraint stmt conName

/-! ## Connection pool selection (`createConnectionPool`, `Initialize`) -/

/-- Abstract handle for a caller-supplied `gorm.ConnPool`. -/
structure RawConn where
  id : Nat
deriving DecidableEq

/-- Abstract handle for a `driver.Connector`. -/
structure Connector where
  id : Nat
deriving DecidableEq

/-- The pool produced by `createConnectionPool`, tagged by its source.
`database/sql.OpenDB` always returns a non-nil handle and `sql.Open` with a
registered driver name succeeds without I/O, so both external constructors
are embedded as total. -/
inductive ConnPool where
  | supplied (c : RawConn)
  | openedDB (c : Connector)
  | openedDSN (driver dsn : String)
deriving DecidableEq

/-- The connection-related part of `snowflake.Config`. -/
structure Config where
  driverName : String
  dsn : String
  conn : Option RawConn
  connector : Option Connector
deriving DecidableEq

/-- Embedding of `Dialector.createConnectionPool`: prefer `Conn`, then
`Connector`, then a non-empty `DSN`; otherwise fail. -/
def createConnectionPool (cfg : Config) : Except String ConnPool :=
  match cfg.conn with
  | some c => .ok (.supplied c)
  | none =>
    match cfg.connector with
    | some cn => .ok (.openedDB cn)
    | none =>
      if cfg.dsn ≠ "" then .ok (.openedDSN cfg.driverName cfg.dsn)
      else .error "no connection information provided: must specify either Conn, Connector, or DSN"

/-- Embedding of the pool-creating part of `Dialector.Initialize`: the driver
name is forced to "snowflake" before the pool is created; naming-strategy and
callback registration are external to the pool result. -/
def initializeDialector (cfg : Config) : Except String ConnPool :=
  createConnectionPool { cfg with driverName := "snowflake" }

/-- Which of the three configured sources a pool was selected from. -/
def selectedSource (cfg : Config) (p : ConnPool) : Prop :=
  (∃ c, cfg.conn = some c ∧ p = .supplied c) ∨
  (∃ cn, cfg.connector = some cn ∧ p = .openedDB cn) ∨
  (cfg.dsn ≠ "" ∧ p = .openedDSN "snowflake" cfg.dsn)

/-! ## Concrete inputs used by witnesses and counterexamples -/

/-- A 256-byte name, alternating `_` and `A`, exceeding the identifier limit. -/
def exLong : ByteStr := (List.replicate 128 [95, 65]).flatten

/-- A statement carrying a parsed schema, as in the AutoMigrate diff pass. -/
def stmtUsers : Statement := ⟨some ⟨"USERS"⟩, "USERS", none⟩

/-- A plain string field of declared size 100. -/
def nameField : Field := ⟨"NAME", .string, 100, false, false, false, "", ""⟩

/-- An auto-increment integer primary-key field. -/
def idField : Field := ⟨"ID", .int, 0, true, true, true, "", ""⟩

/-- A live TEXT column differing from `idField` in type and nullability. -/
def liveTextCol : GormColumn := ⟨"TEXT", false, 0, 0, some 100, some true⟩

/-- A numeric column reporting a negative (hence nonzero) scale. -/
def colNegScale : GormColumn := ⟨"NUMBER", true, 38, -1, none, none⟩

/-- A numeric column with positive scale. -/
def colNum2 : GormColumn := ⟨"NUMBER", true, 38, 2, none, none⟩

/-- A numeric column with zero scale. -/
def colDec0 : GormColumn := ⟨"DECIMAL", true, 38, 0, none, none⟩

/-- A textual column. -/
def colText : GormColumn := ⟨"VARCHAR", false, 0, 0, some 100, some true⟩

/-- A temporal column. -/
def colDate : GormColumn := ⟨"DATE", false, 0, 0, none, none⟩

/-- A config with no connection source at all. -/
def emptyConfig : Config := ⟨"", "", none, none⟩

/-- A config carrying only a DSN. -/
def dsnConfig : Config := ⟨"snowflake", "user:pass@account/db", none, none⟩

/-! ## Claim theorems -/

/-- C1 counterexample: with empty live metadata (so no constraint with the
computed name exists), the AutoMigrate constraint-diff step calls
CreateConstraint, yet no ALTER TABLE ... ADD statement is emitted — the
emitted DDL list is empty, refuting the claim at this input. -/
theorem C1_counterexample :
    hasConstraintLive [] "FK_USERS_PETS" = false ∧
    constraintStep [] stmtUsers "FK_USERS_PETS" = [] := by
  exact ⟨rfl, rfl⟩

/-- C1 (amended): when no constraint with the computed name exists live, the
constraint-diff step invokes CreateConstraint, but CreateConstraint emits no
DDL at all and reports success, because GuessConstraintAndTable always
returns a nil constraint; the same holds for check constraints, which go
through the same CreateConstraint path. -/
theorem C1_createConstraint_no_ddl (live : List String) (stmt : Statement)
    (conName : String) (h : hasConstraintLive live conName = false) :
    constraintStep live stmt conName = [] := by
  have hc : createConstraint stmt conName = [] := by
    unfold createConstraint guessConstraintAndTable
    cases stmt.schema <;> rfl
  simp [constraintStep, h, hc]

/-- C1 witness: the amended theorem applied at a concrete statement and name
absent from concrete live metadata. -/
theorem C1_witness :
    hasConstraintLive ["PK_USERS"] "FK_A" = false ∧
    constraintStep ["PK_USERS"] (⟨none, "T", none⟩ : Statement) "FK_A" = [] :=
  ⟨by decide, C1_createConstraint_no_ddl ["PK_USERS"] ⟨none, "T", none⟩ "FK_A" (by decide)⟩

/-- C2: the normalized identifier produced by the truncate-with-hash path has
length at most 255 for every input string. -/
theorem C2_length_bound (s : ByteStr) : (truncateWithHash s).length ≤ 255 := by
  simp only [truncateWithHash]
  split
  · next h => simpa [maxIdentifierLength] using h
  · next h =>
    rw [List.length_append, List.length_cons, List.length_take, tail_length]
    have h2 : ¬(upperBytes s).length ≤ 255 := by
      simpa [maxIdentifierLength] using h
    simp only [maxIdentifierLength]
    omega

/-- C3: for strings of length at most 255, truncate-with-hash returns exactly
the uppercased input — no truncation and no hash suffix. -/
theorem C3_identity_below_limit (s : ByteStr) (h : s.length ≤ 255) :
    truncateWithHash s = upperBytes s := by
  have h2 : (upperBytes s).length ≤ maxIdentifierLength := by
    rw [upperBytes_length]; simpa [maxIdentifierLength] using h
  simp [truncateWithHash, h2]

/-- C3 witness: the identity theorem applied at the concrete two-byte
string "hi". -/
theorem C3_witness :
    ([104, 105] : ByteStr).length ≤ 255 ∧
    truncateWithHash [104, 105] = upperBytes [104, 105] :=
  ⟨by decide, C3_identity_below_limit [104, 105] (by decide)⟩

/-- C4 counterexample: on a 256-byte name alternating `_A`, the result of
truncate-with-hash does not contain exactly one separator character — the
kept prefix itself contains separators, so the count exceeds one. -/
theorem C4_counterexample : (truncateWithHash exLong).count 95 ≠ 1 := by
  have hlen : ¬(upperBytes exLong).length ≤ maxIdentifierLength := by decide
  have heq : truncateWithHash exLong =
      (upperBytes exLong).take (max (maxIdentifierLength - 1 -
        (hexEncode ((sha1 (upperBytes exLong)).take 8)).length) 1) ++
      95 :: hexEncode ((sha1 (upperBytes exLong)).take 8) := by
    simp [truncateWithHash, hlen]
  rw [heq, List.count_append, List.count_cons, hexEncode_count_sep, tail_length]
  decide

/-- C4 (amended): for strings longer than 255 bytes, the result is the first
238 characters of the uppercased candidate, one separator, and a fixed-width
16-hex-character digest computed from the entire uppercased original string;
the digest contains no separator, but the kept prefix may, so the whole
result contains at least — not exactly — one separator. -/
theorem C4_hash_suffix (s : ByteStr) (h : 255 < s.length) :
    truncateWithHash s =
      (upperBytes s).take 238 ++ 95 :: hexEncode ((sha1 (upperBytes s)).take 8) ∧
    (hexEncode ((sha1 (upperBytes s)).take 8)).length = 16 ∧
    (hexEncode ((sha1 (upperBytes s)).take 8)).count 95 = 0 := by
  have hlen : ¬(upperBytes s).length ≤ 255 := by
    rw [upperBytes_length]; omega
  refine ⟨?_, tail_length _, hexEncode_count_sep _⟩
  simp [truncateWithHash, maxIdentifierLength, hlen, tail_length]

/-- C4 witness: the amended theorem applied at the concrete 256-byte name. -/
theorem C4_witness :
    255 < exLong.length ∧
    (truncateWithHash exLong =
      (upperBytes exLong).take 238 ++ 95 :: hexEncode ((sha1 (upperBytes exLong)).take 8) ∧
     (hexEncode ((sha1 (upperBytes exLong)).take 8)).length = 16 ∧
     (hexEncode ((sha1 (upperBytes exLong)).take 8)).count 95 = 0) :=
  ⟨by decide, C4_hash_suffix exLong (by decide)⟩

/-- The sized and unbounded VARCHAR spellings are distinct strings. -/
theorem varchar_sized_ne (n : Int) :
    ("VARCHAR(" ++ toString n ++ ")" : String) ≠ "VARCHAR" := by
  intro h
  have h2 := congrArg String.length h
  rw [String.length_append, String.length_append] at h2
  have e1 : ("VARCHAR(" : String).length = 8 := rfl
  have e2 : ((")") : String).length = 1 := rfl
  have e3 : ("VARCHAR" : String).length = 7 := rfl
  omega

/-- C5: for String fields, DataTypeOf returns VARCHAR(n) exactly when the
effective size n lies in (0, 4000], and an unbounded VARCHAR otherwise; the
effective size defaults to 256 for primary-key or indexed/unique fields with
no explicit size (captured by `effectiveSize`). -/
theorem C5_string_type (f : Field) (hs : f.dataType = DataType.string) :
    (dataTypeOf f = "VARCHAR(" ++ toString (effectiveSize f) ++ ")" ↔
      0 < effectiveSize f ∧ effectiveSize f ≤ 4000) ∧
    (¬(0 < effectiveSize f ∧ effectiveSize f ≤ 4000) → dataTypeOf f = "VARCHAR") := by
  have hd : dataTypeOf f =
      if 0 < effectiveSize f ∧ effectiveSize f ≤ 4000 then
        "VARCHAR(" ++ toString (effectiveSize f) ++ ")"
      else "VARCHAR" := by
    simp [dataTypeOf, hs]
  by_cases hr : 0 < effectiveSize f ∧ effectiveSize f ≤ 4000
  · rw [hd, if_pos hr]
    exact ⟨⟨fun _ => hr, fun _ => rfl⟩, fun hn => absurd hr hn⟩
  · rw [hd, if_neg hr]
    exact ⟨⟨fun h => absurd h.symm (varchar_sized_ne _), fun h => absurd h hr⟩, fun _ => rfl⟩

/-- C5 witness: the mapping theorem applied at a concrete size-100 string
field. -/
theorem C5_witness :
    nameField.dataType = DataType.string ∧
    ((dataTypeOf nameField = "VARCHAR(" ++ toString (effectiveSize nameField) ++ ")" ↔
      0 < effectiveSize nameField ∧ effectiveSize nameField ≤ 4000) ∧
     (¬(0 < effectiveSize nameField ∧ effectiveSize nameField ≤ 4000) →
        dataTypeOf nameField = "VARCHAR")) :=
  ⟨rfl, C5_string_type nameField rfl⟩

/-- C6 counterexample: a numeric column whose reported scale is -1 (nonzero)
normalizes to BIGINT, not FLOAT — the code tests `scale > 0`, not
`scale != 0`. -/
theorem C6_counterexample :
    colNegScale.scale ≠ 0 ∧ colNegScale.decimalOk = true ∧
    databaseTypeName colNegScale = "BIGINT" := by
  refine ⟨by decide, rfl, by decide⟩

/-- C6 (amended): numeric-family raw types with positive reported scale
normalize to FLOAT and with zero, negative, or unreported scale to BIGINT;
the textual family normalizes to TEXT; temporal types pass through
unchanged. -/
theorem C6_type_normalization (c : GormColumn) :
    ((strUpper c.rawTypeName = "NUMBER" ∨ strUpper c.rawTypeName = "DECIMAL" ∨
      strUpper c.rawTypeName = "NUMERIC" ∨ strUpper c.rawTypeName = "FIXED") →
      (c.decimalOk = true ∧ 0 < c.scale → databaseTypeName c = "FLOAT") ∧
      (¬(c.decimalOk = true ∧ 0 < c.scale) → databaseTypeName c = "BIGINT")) ∧
    ((strUpper c.rawTypeName = "TEXT" ∨ strUpper c.rawTypeName = "VARCHAR") →
      databaseTypeName c = "TEXT") ∧
    ((strUpper c.rawTypeName = "TIMESTAMP_NTZ" ∨ strUpper c.rawTypeName = "TIMESTAMP_LTZ" ∨
      strUpper c.rawTypeName = "TIMESTAMP_TZ" ∨ strUpper c.rawTypeName = "DATE" ∨
      strUpper c.rawTypeName = "TIME") →
      databaseTypeName c = c.rawTypeName) := by
  refine ⟨fun hnum => ⟨fun hsc => ?_, fun hsc => ?_⟩, fun htxt => ?_, fun htime => ?_⟩
  · rcases hnum with h | h | h | h <;> simp +decide [databaseTypeName, h, hsc]
  · rcases hnum with h | h | h | h <;> simp +decide [databaseTypeName, h, hsc]
  · rcases htxt with h | h <;> simp +decide [databaseTypeName, h]
  · rcases htime with h | h | h | h | h <;> simp +decide [databaseTypeName, h]

/-- C6 witness: the amended theorem applied at concrete numeric, textual and
temporal columns. -/
theorem C6_witness :
    databaseTypeName colNum2 = "FLOAT" ∧ databaseTypeName colDec0 = "BIGINT" ∧
    databaseTypeName colText = "TEXT" ∧ databaseTypeName colDate = "DATE" :=
  ⟨((C6_type_normalization colNum2).1 (Or.inl (by decide))).1 ⟨rfl, by decide⟩,
   ((C6_type_normalization colDec0).1 (Or.inr (Or.inl (by decide)))).2 (by decide),
   (C6_type_normalization colText).2.1 (Or.inr (by decide)),
   (C6_type_normalization colDate).2.2 (Or.inr (Or.inr (Or.inr (Or.inl (by decide)))))⟩

/-- C7: MigrateColumn skips auto-increment fields entirely — it succeeds
immediately and issues no DDL, whatever the live column looks like. -/
theorem C7_autoincrement_skip (f : Field) (ct : GormColumn)
    (h : f.autoIncrement = true) : migrateColumn f ct = [] := by
  simp [migrateColumn, h]

/-- C7 witness: the skip theorem applied at a concrete identity field against
a live column differing in type, length and nullability. -/
theorem C7_witness :
    idField.autoIncrement = true ∧ migrateColumn idField liveTextCol = [] :=
  ⟨rfl, C7_autoincrement_skip idField liveTextCol rfl⟩

/-- C8: RenameColumn fails with the unsupported-operation error for every
input, and the error return carries no DDL. -/
theorem C8_rename_column_error (value oldName newName : String) :
    renameColumn value oldName newName = Except.error "RENAME COLUMN UNSUPPORTED" := rfl

/-- C9: with no connection source configured, pool creation during
initialization fails with the no-connection-information error; with at least
one source configured it succeeds, selecting one of the configured sources. -/
theorem C9_connection_sources (cfg : Config) :
    (cfg.conn = none ∧ cfg.connector = none ∧ cfg.dsn = "" →
      initializeDialector cfg =
        Except.error "no connection information provided: must specify either Conn, Connector, or DSN") ∧
    ((cfg.conn ≠ none ∨ cfg.connector ≠ none ∨ cfg.dsn ≠ "") →
      ∃ p, initializeDialector cfg = Except.ok p ∧ selectedSource cfg p) := by
  constructor
  · rintro ⟨h1, h2, h3⟩
    simp [initializeDialector, createConnectionPool, h1, h2, h3]
  · intro h
    rcases hc : cfg.conn with _ | c
    · rcases hcn : cfg.connector with _ | cn
      · have hd : cfg.dsn ≠ "" := by
          rcases h with h | h | h
          · exact absurd hc h
          · exact absurd hcn h
          · exact h
        refine ⟨.openedDSN "snowflake" cfg.dsn, ?_, Or.inr (Or.inr ⟨hd, rfl⟩)⟩
        simp [initializeDialector, createConnectionPool, hc, hcn, hd]
      · refine ⟨.openedDB cn, ?_, Or.inr (Or.inl ⟨cn, hcn, rfl⟩)⟩
        simp [initializeDialector, createConnectionPool, hc, hcn]
    · refine ⟨.supplied c, ?_, Or.inl ⟨c, hc, rfl⟩⟩
      simp [initializeDialector, createConnectionPool, hc]

/-- C9 witness: the theorem applied at a sourceless config (failure) and a
DSN-only config (success). -/
theorem C9_witness :
    (emptyConfig.conn = none ∧ emptyConfig.connector = none ∧ emptyConfig.dsn = "" ∧
      initializeDialector emptyConfig =
        Except.error "no connection information provided: must specify either Conn, Connector, or DSN") ∧
    (dsnConfig.dsn ≠ "" ∧
      ∃ p, initializeDialector dsnConfig = Except.ok p ∧ selectedSource dsnConfig p) :=
  ⟨⟨rfl, rfl, rfl, (C9_connection_sources emptyConfig).1 ⟨rfl, rfl, rfl⟩⟩,
   ⟨by decide, (C9_connection_sources dsnConfig).2 (Or.inr (Or.inr (by decide)))⟩⟩

/-- C10: HasIndex returns true unconditionally, for every value and index
name, without consulting live metadata. -/
theorem C10_hasIndex_always_true (value idxName : String) :
    hasIndex value idxName = true := rfl

end GormSnowflake
